import Mathlib

/-!
Verification of the BoxFit client (`src/frontend/src/App.js`) against its
natural-language specification.

The file shallowly embeds the data model and the operations of the React
client: the 10×10 grid, the piece catalog `TETRIS_PIECES`, the placement
validator `checkValidPlacement`, the websocket message handlers
(`piece_placed`, `piece_rotated`), the local claim operation `getNewPiece`,
and the mouse-up handler that emits `place_piece` messages.  JS numbers used
as pixel coordinates are modelled as `Int` (so `Math.floor(x / 40)` becomes
`Int.fdiv x 40`), grid cells as `Option CellData` (`none` = JS `null`), and
possibly-missing array indexing as `List.getElem?` (`none` = JS `undefined`).
Stateful handlers are modelled as explicit state transformers returning the
new client state together with the list of websocket messages sent.
-/

/-- An occupied grid cell as the client consumes it (`cell.color` is the only
field the client reads; `null` cells are `Option.none` one level up). -/
structure CellData where
  color : String
deriving DecidableEq

/-- A grid as held in `gameState.grid`: a list of rows, each row a list of
cells, where a cell is `null` (`none`) or occupied (`some`). -/
abbrev Grid := List (List (Option CellData))

/-- A shape matrix: rows of 0/1 entries, as in `TETRIS_PIECES[*].shape`. -/
abbrev Shape := List (List Nat)

/-- The piece offered by the server in `gameState.nextPiece`. -/
structure OfferedPiece where
  shape : Shape
  color : String
  type : String
deriving DecidableEq

/-- The piece held in `currentPiece`: the offered piece's fields plus the
fresh `id` stamped by `getNewPiece` (`Date.now()` in the source). -/
structure HeldPiece where
  shape : Shape
  color : String
  type : String
  id : Nat
deriving DecidableEq

/-- A player entry as displayed in the sidebar (`data.color`,
`data.connected`). -/
structure PlayerData where
  color : String
  connected : Bool
deriving DecidableEq

/-- The `gameState` React state object (App.js lines 18-25). The JS `players`
object is modelled as an association list. -/
structure GameState where
  grid : Grid
  players : List (String × PlayerData)
  score : Int
  nextPiece : Option OfferedPiece
  playerName : String
  playerColor : String
deriving DecidableEq

/-- The `dragState` React state object (App.js line 31). -/
structure DragState where
  isDragging : Bool
  startX : Int
  startY : Int
deriving DecidableEq

/-- The whole client-side state: every `useState` cell of the component plus
the websocket-open flag (`wsRef.current` being non-null). -/
structure ClientState where
  gameState : GameState
  roomId : String
  playerName : String
  isConnected : Bool
  currentPiece : Option HeldPiece
  dragState : DragState
  piecePosition : Int × Int
  isValidPlacement : Bool
  wsOpen : Bool
deriving DecidableEq

/-- Outbound websocket messages the client can send. -/
inductive OutMsg where
  | placePiece (shape : Shape) (x y : Int) (color : String)
  | rotateRequest (shape : Shape)
deriving DecidableEq

/-- The check performed for one sub-cell `(row, col)` of the shape inside the
nested loops of `checkValidPlacement` (App.js lines 116-127):
`shape[row][col] === 1` guards the whole check; the computed absolute cell is
bound-checked, then `gameState.grid[gridY] && gameState.grid[gridY][gridX]
!== null` rejects occupied cells.  A missing row (`grid[gridY]` undefined,
i.e. `none`) short-circuits the occupancy test to "ok"; a present row with a
missing entry gives `undefined !== null`, i.e. a rejection. -/
def cellCheck (grid : Grid) (x y : Int) (row col : Nat) (v : Nat) : Bool :=
  if v = 1 then
    if Int.fdiv x 40 + (col : Int) < 0 ∨ Int.fdiv x 40 + (col : Int) ≥ 10 ∨
       Int.fdiv y 40 + (row : Int) < 0 ∨ Int.fdiv y 40 + (row : Int) ≥ 10 then
      false
    else
      match grid[(Int.fdiv y 40 + (row : Int)).toNat]? with
      | none => true
      | some rowArr =>
        match rowArr[(Int.fdiv x 40 + (col : Int)).toNat]? with
        | none => false
        | some none => true
        | some (some _) => false
  else true

/-- Inner `for (let col = ...)` loop of `checkValidPlacement`, carrying the
current column index; `&&` short-circuits exactly like the early `return
false`. -/
def checkRowAux (grid : Grid) (x y : Int) (row : Nat) : Nat → List Nat → Bool
  | _, [] => true
  | col, v :: vs => cellCheck grid x y row col v && checkRowAux grid x y row (col + 1) vs

/-- Outer `for (let row = ...)` loop of `checkValidPlacement`. -/
def checkRowsAux (grid : Grid) (x y : Int) : Nat → Shape → Bool
  | _, [] => true
  | row, r :: rs => checkRowAux grid x y row 0 r && checkRowsAux grid x y (row + 1) rs

/-- `checkValidPlacement(shape, x, y)` (App.js lines 113-131), with the grid
it reads from the `gameState.grid` closure passed explicitly. -/
def checkValidPlacement (grid : Grid) (shape : Shape) (x y : Int) : Bool :=
  checkRowsAux grid x y 0 shape

/-- A sub-cell `(r, c)` of a shape is filled when the matrix entry is `1`
(out-of-range indices read as `0`, hence unfilled). -/
def filledAt (shape : Shape) (r : Nat) (c : Nat) : Prop :=
  (shape.getD r []).getD c 0 = 1

instance (shape : Shape) (r c : Nat) : Decidable (filledAt shape r c) := by
  unfold filledAt; infer_instance

/-- The value stored in the grid at row `r`, column `c`: `none` when the row
or the entry is missing, `some none` for an empty (JS `null`) cell,
`some (some d)` for an occupied cell. -/
def cellAt (grid : Grid) (r c : Nat) : Option (Option CellData) :=
  grid[r]?.bind fun rowArr => rowArr[c]?

/-- Spec-side validity condition, transcribed from the specification: with
origin cell `(row0, col0) = (floor(y/40), floor(x/40))`, every filled
sub-cell `(r, c)` of the shape must land in bounds (`0 ≤ row0+r < 10`,
`0 ≤ col0+c < 10`) on an empty (`null`) grid cell. -/
def placementOK (grid : Grid) (shape : Shape) (x y : Int) : Prop :=
  ∀ r c : Nat, filledAt shape r c →
    0 ≤ Int.fdiv x 40 + (c : Int) ∧ Int.fdiv x 40 + (c : Int) < 10 ∧
    0 ≤ Int.fdiv y 40 + (r : Int) ∧ Int.fdiv y 40 + (r : Int) < 10 ∧
    cellAt grid (Int.fdiv y 40 + (r : Int)).toNat (Int.fdiv x 40 + (c : Int)).toNat = some none

/-- Modelled from the spec: the server-side 90° rotation step is not under
`src/` (only the frontend is); §4.3 defines it as "transpose + row-reverse,
or equivalent", turning a `rows × cols` matrix into a `cols × rows` one.
For a rectangular `R × C` matrix this composite is exactly the index map
`result[r][c] = shape[R-1-c][r]` with result dimensions `C × R`, which is the
form used here (the number of columns is read off the first row, as the
transposition of a rectangular matrix would). -/
def rotateShape (shape : Shape) : Shape :=
  (List.range (shape.getD 0 []).length).map fun r =>
    (List.range shape.length).map fun c =>
      (shape.getD (shape.length - 1 - c) []).getD r 0

/-- One entry of the `TETRIS_PIECES` catalog object (App.js lines 7-15). -/
structure CatalogEntry where
  name : String
  shape : Shape
  color : String
deriving DecidableEq

/-- The `TETRIS_PIECES` catalog (App.js lines 7-15), in source order. -/
def TETRIS_PIECES : List CatalogEntry :=
  [⟨"I", [[1, 1, 1, 1]], "#00FFFF"⟩,
   ⟨"O", [[1, 1], [1, 1]], "#FFFF00"⟩,
   ⟨"T", [[0, 1, 0], [1, 1, 1]], "#800080"⟩,
   ⟨"L", [[1, 0, 0], [1, 1, 1]], "#FFA500"⟩,
   ⟨"J", [[0, 0, 1], [1, 1, 1]], "#0000FF"⟩,
   ⟨"S", [[0, 1, 1], [1, 1, 0]], "#00FF00"⟩,
   ⟨"Z", [[1, 1, 0], [0, 1, 1]], "#FF0000"⟩]

/-- The seven cataloged shape matrices. -/
def catalogShapes : List Shape := TETRIS_PIECES.map (·.shape)

/-- The first row of a shape contains a filled sub-cell. -/
def topRowFilled (shape : Shape) : Bool :=
  (shape.getD 0 []).any (· == 1)

/-- The first column of a shape contains a filled sub-cell. -/
def leftColFilled (shape : Shape) : Bool :=
  shape.any fun row => row.getD 0 0 == 1

/-- The shape is one of the four rotational states of a cataloged shape. -/
def isCatalogRotation (shape : Shape) : Prop :=
  ∃ base ∈ catalogShapes, ∃ k, k < 4 ∧ shape = rotateShape^[k] base

/-- Handler of the `piece_placed` websocket message (App.js lines 60-68):
`setGameState` overwrites `grid`, `score` and `nextPiece` from the payload
and `setCurrentPiece(null)` drops the held piece. -/
def handlePiecePlaced (s : ClientState) (grid : Grid) (score : Int)
    (next_piece : Option OfferedPiece) : ClientState :=
  { s with
    gameState := { s.gameState with grid := grid, score := score, nextPiece := next_piece },
    currentPiece := none }

/-- Handler of the `piece_rotated` websocket message (App.js lines 69-73).
The `onmessage` closure is installed once per connection inside
`connectToGame` (a `useCallback` keyed only on `[roomId, playerName,
WS_URL]`, and `connectToGame` early-returns while `wsRef.current` is set), so
the `currentPiece` tested by `if (currentPiece)` is the value captured at the
render the connection was made from — passed here as `captured` — while the
functional `setCurrentPiece(prev => ({ ...prev, shape }))` update acts on the
live held piece of the current state.  At connection time `currentPiece` is
`null` (the claim/get-piece UI only exists after joining), so the program
runs this with `captured = none`.  In the unreachable combination `captured`
non-null with live piece `null`, the JS spread of `null` would build a
degenerate shape-only object not representable as `HeldPiece`; the model
keeps the state unchanged there. -/
def handlePieceRotated (s : ClientState) (captured : Option HeldPiece)
    (shape : Shape) : ClientState :=
  match captured with
  | none => s
  | some _ =>
    match s.currentPiece with
    | none => s
    | some p => { s with currentPiece := some { p with shape := shape } }

/-- `getNewPiece` (App.js lines 95-102): when a piece is offered, hold a copy
of it stamped with a fresh id (`Date.now()`, passed as `now`); no websocket
traffic in either case. -/
def getNewPiece (s : ClientState) (now : Nat) : ClientState × List OutMsg :=
  match s.gameState.nextPiece with
  | none => (s, [])
  | some p =>
    ({ s with currentPiece := some ⟨p.shape, p.color, p.type, now⟩ }, [])

/-- `handleMouseUp` (App.js lines 169-200) with `px`, `py` the release point
relative to the grid rectangle: an early return when not dragging or not
holding a piece; otherwise the drag state, piece position and validity flag
are reset, and a `place_piece` message with cell coordinates
`(floor(px/40), floor(py/40))` is sent exactly when `checkValidPlacement`
approves the pixel position and the websocket is present. -/
def handleMouseUp (s : ClientState) (px py : Int) : ClientState × List OutMsg :=
  match s.currentPiece with
  | none => (s, [])
  | some p =>
    if s.dragState.isDragging then
      ({ s with dragState := ⟨false, 0, 0⟩, piecePosition := (0, 0), isValidPlacement := true },
       if checkValidPlacement s.gameState.grid p.shape px py && s.wsOpen then
         [OutMsg.placePiece p.shape (Int.fdiv px 40) (Int.fdiv py 40) p.color]
       else [])
    else (s, [])

/-- Stateful denotation of a call to `checkValidPlacement`: the function body
(App.js lines 113-131) contains no assignment, no `setState` call and no
`send`, so its effect on the client state is the identity and its result is
computed from `gameState.grid` and its arguments alone. -/
def checkValidPlacementCall (s : ClientState) (shape : Shape) (x y : Int) :
    Bool × ClientState :=
  (checkValidPlacement s.gameState.grid shape x y, s)

/-- An all-`null` 10×10 grid, the initial `gameState.grid`. -/
def emptyGrid : Grid := List.replicate 10 (List.replicate 10 none)

/-- Concrete offered piece (the `O` catalog entry) used by witnesses. -/
def demoOffered : OfferedPiece := ⟨[[1, 1], [1, 1]], "#FFFF00", "O"⟩

/-- Concrete held piece used by witnesses. -/
def demoHeld : HeldPiece := ⟨[[1, 1], [1, 1]], "#FFFF00", "O", 7⟩

/-- Concrete client state used by witnesses: empty grid, one offered piece,
one held piece, drag in progress, websocket open. -/
def demoState : ClientState :=
  { gameState :=
      { grid := emptyGrid
        players := [("alice", ⟨"#123456", true⟩)]
        score := 0
        nextPiece := some demoOffered
        playerName := "alice"
        playerColor := "#123456" }
    roomId := "room1"
    playerName := "alice"
    isConnected := true
    currentPiece := some demoHeld
    dragState := ⟨true, 0, 0⟩
    piecePosition := (0, 0)
    isValidPlacement := true
    wsOpen := true }

/-- The `place_piece` message emitted from `demoState` on a release at the
grid origin. -/
def demoMsg : OutMsg := OutMsg.placePiece [[1, 1], [1, 1]] 0 0 "#FFFF00"

theorem cellCheck_of_ne_one {grid : Grid} {x y : Int} {row col v : Nat} (hv : v ≠ 1) :
    cellCheck grid x y row col v = true := by
  simp [cellCheck, hv]

theorem checkRowAux_eq_true (grid : Grid) (x y : Int) (row : Nat) :
    ∀ (l : List Nat) (c0 : Nat),
      checkRowAux grid x y row c0 l = true ↔
        ∀ i, i < l.length → cellCheck grid x y row (c0 + i) (l.getD i 0) = true := by
  intro l
  induction l with
  | nil => intro c0; simp [checkRowAux]
  | cons v vs ih =>
    intro c0
    simp only [checkRowAux, Bool.and_eq_true, ih (c0 + 1)]
    constructor
    · rintro ⟨h1, h2⟩ i hi
      cases i with
      | zero => simpa using h1
      | succ j =>
        have hj : j < vs.length := by simpa using hi
        simpa [Nat.add_assoc, Nat.add_comm 1 j] using h2 j hj
    · intro h
      refine ⟨by simpa using h 0 (by simp), ?_⟩
      intro j hj
      have := h (j + 1) (by simpa using Nat.succ_lt_succ hj)
      simpa [Nat.add_assoc, Nat.add_comm 1 j] using this

theorem checkRowsAux_eq_true (grid : Grid) (x y : Int) :
    ∀ (rows : Shape) (r0 : Nat),
      checkRowsAux grid x y r0 rows = true ↔
        ∀ i, i < rows.length → checkRowAux grid x y (r0 + i) 0 (rows.getD i []) = true := by
  intro rows
  induction rows with
  | nil => intro r0; simp [checkRowsAux]
  | cons r rs ih =>
    intro r0
    simp only [checkRowsAux, Bool.and_eq_true, ih (r0 + 1)]
    constructor
    · rintro ⟨h1, h2⟩ i hi
      cases i with
      | zero => simpa using h1
      | succ j =>
        have hj : j < rs.length := by simpa using hi
        simpa [Nat.add_assoc, Nat.add_comm 1 j] using h2 j hj
    · intro h
      refine ⟨by simpa using h 0 (by simp), ?_⟩
      intro j hj
      have := h (j + 1) (by simpa using Nat.succ_lt_succ hj)
      simpa [Nat.add_assoc, Nat.add_comm 1 j] using this

theorem checkValidPlacement_iff_cells (grid : Grid) (shape : Shape) (x y : Int) :
    checkValidPlacement grid shape x y = true ↔
      ∀ r c : Nat, cellCheck grid x y r c ((shape.getD r []).getD c 0) = true := by
  unfold checkValidPlacement
  rw [checkRowsAux_eq_true]
  constructor
  · intro h r c
    by_cases hr : r < shape.length
    · have hrow := h r hr
      rw [Nat.zero_add, checkRowAux_eq_true] at hrow
      by_cases hc : c < (shape.getD r []).length
      · simpa using hrow c hc
      · rw [List.getD_eq_default _ _ (Nat.le_of_not_lt hc)]
        exact cellCheck_of_ne_one (by decide)
    · rw [List.getD_eq_default _ _ (Nat.le_of_not_lt hr), List.getD_nil]
      exact cellCheck_of_ne_one (by decide)
  · intro h i _
    rw [Nat.zero_add, checkRowAux_eq_true]
    intro j _
    simpa using h i j

theorem cellCheck_true_iff (grid : Grid) (x y : Int) (hg : grid.length = 10)
    (hrow : ∀ row ∈ grid, row.length = 10) (r c v : Nat) :
    cellCheck grid x y r c v = true ↔
      (v = 1 →
        0 ≤ Int.fdiv x 40 + (c : Int) ∧ Int.fdiv x 40 + (c : Int) < 10 ∧
        0 ≤ Int.fdiv y 40 + (r : Int) ∧ Int.fdiv y 40 + (r : Int) < 10 ∧
        cellAt grid (Int.fdiv y 40 + (r : Int)).toNat (Int.fdiv x 40 + (c : Int)).toNat
          = some none) := by
  by_cases hv : v = 1
  · subst hv
    unfold cellCheck
    rw [if_pos rfl]
    by_cases hOOB : Int.fdiv x 40 + (c : Int) < 0 ∨ Int.fdiv x 40 + (c : Int) ≥ 10 ∨
        Int.fdiv y 40 + (r : Int) < 0 ∨ Int.fdiv y 40 + (r : Int) ≥ 10
    · rw [if_pos hOOB]
      constructor
      · intro h; exact absurd h (by decide)
      · intro hR
        exfalso
        obtain ⟨h1, h2, h3, h4, -⟩ := hR rfl
        rcases hOOB with h | h | h | h <;> omega
    · rw [if_neg hOOB]
      push_neg at hOOB
      obtain ⟨h1, h2, h3, h4⟩ := hOOB
      have hgy : (Int.fdiv y 40 + (r : Int)).toNat < grid.length := by omega
      have hlen := hrow _ (List.getElem_mem hgy)
      have hgx : (Int.fdiv x 40 + (c : Int)).toNat <
          (grid[(Int.fdiv y 40 + (r : Int)).toNat]).length := by omega
      have hcell : cellAt grid (Int.fdiv y 40 + (r : Int)).toNat
          (Int.fdiv x 40 + (c : Int)).toNat
          = some (grid[(Int.fdiv y 40 + (r : Int)).toNat][(Int.fdiv x 40 + (c : Int)).toNat]) := by
        simp [cellAt, List.getElem?_eq_getElem hgy, List.getElem?_eq_getElem hgx]
      rcases hcase : grid[(Int.fdiv y 40 + (r : Int)).toNat][(Int.fdiv x 40 + (c : Int)).toNat]
        with - | d
      · constructor
        · intro _ _
          exact ⟨h1, h2, h3, h4, by rw [hcell, hcase]⟩
        · intro _
          simp [List.getElem?_eq_getElem hgy, List.getElem?_eq_getElem hgx, hcase]
      · constructor
        · intro h
          exfalso
          simp only [List.getElem?_eq_getElem hgy, List.getElem?_eq_getElem hgx, hcase] at h
          exact absurd h (by decide)
        · intro hR
          exfalso
          obtain ⟨-, -, -, -, hnone⟩ := hR rfl
          rw [hcell, hcase] at hnone
          exact Option.noConfusion (Option.some.inj hnone)
  · simp [cellCheck, hv]

/-- C1: for every 10×10 grid and every shape matrix, with origin cell
`(row0, col0) = (floor(y/40), floor(x/40))` of the pixel coordinates,
`checkValidPlacement shape x y` returns `true` if and only if every filled
sub-cell `(r, c)` of the shape satisfies `0 ≤ row0+r < 10`,
`0 ≤ col0+c < 10`, and the grid cell at `(row0+r, col0+c)` is empty
(`null`). -/
theorem checkValidPlacement_correct (grid : Grid) (shape : Shape) (x y : Int)
    (hg : grid.length = 10) (hrow : ∀ row ∈ grid, row.length = 10) :
    checkValidPlacement grid shape x y = true ↔ placementOK grid shape x y := by
  rw [checkValidPlacement_iff_cells]
  constructor
  · intro h r c hf
    exact (cellCheck_true_iff grid x y hg hrow r c _).mp (h r c) hf
  · intro h r c
    rw [cellCheck_true_iff grid x y hg hrow r c]
    intro hv
    exact h r c hv

/-- Witness for C1: on the empty 10×10 grid, a released 1×1 shape at pixel
`(0,0)` validates, and the theorem converts that into the spec-side
condition. -/
theorem checkValidPlacement_correct_witness :
    placementOK emptyGrid [[1]] 0 0 :=
  (checkValidPlacement_correct emptyGrid [[1]] 0 0 (by decide) (by decide)).mp (by decide)

/-- C4: `checkValidPlacement` is total (it always returns a boolean), and for
every grid — 10×10 or not — a shape with at least one filled sub-cell all of
whose filled sub-cells map outside the 10×10 board yields `false`, not an
error. -/
theorem checkValidPlacement_offgrid (grid : Grid) (shape : Shape) (x y : Int)
    (hne : ∃ r c : Nat, filledAt shape r c)
    (hout : ∀ r c : Nat, filledAt shape r c →
      Int.fdiv x 40 + (c : Int) < 0 ∨ Int.fdiv x 40 + (c : Int) ≥ 10 ∨
      Int.fdiv y 40 + (r : Int) < 0 ∨ Int.fdiv y 40 + (r : Int) ≥ 10) :
    checkValidPlacement grid shape x y = false := by
  obtain ⟨r, c, hf⟩ := hne
  by_contra hne2
  have ht : checkValidPlacement grid shape x y = true := by
    cases hb : checkValidPlacement grid shape x y
    · exact absurd hb hne2
    · rfl
  have hcell := (checkValidPlacement_iff_cells grid shape x y).mp ht r c
  have hv : (shape.getD r []).getD c 0 = 1 := hf
  rw [hv] at hcell
  unfold cellCheck at hcell
  rw [if_pos rfl, if_pos (hout r c hf)] at hcell
  exact absurd hcell (by decide)

/-- Witness for C4: a single filled cell released 10 cells left of the board
(`floor(-400/40) = -10`) is rejected with `false`. -/
theorem checkValidPlacement_offgrid_witness :
    checkValidPlacement emptyGrid [[1]] (-400) 0 = false :=
  checkValidPlacement_offgrid emptyGrid [[1]] (-400) 0 ⟨0, 0, by decide⟩
    (by
      intro r c hf
      rcases r with - | r
      · rcases c with - | c
        · left; decide
        · exfalso; simp [filledAt] at hf
      · exfalso; simp [filledAt] at hf)

/-- C10: a shape with no filled sub-cell (all entries 0, or no rows at all)
validates against every grid at every pixel position, even with the origin
cell far outside the board. -/
theorem checkValidPlacement_empty_shape (grid : Grid) (shape : Shape) (x y : Int)
    (hz : ∀ r c : Nat, ¬ filledAt shape r c) :
    checkValidPlacement grid shape x y = true := by
  rw [checkValidPlacement_iff_cells]
  intro r c
  exact cellCheck_of_ne_one (hz r c)

/-- Witness for C10: the rowless shape validates on the empty grid at pixel
`(-400, -400)`, whose origin cell is entirely off-board. -/
theorem checkValidPlacement_empty_shape_witness :
    checkValidPlacement emptyGrid [] (-400) (-400) = true :=
  checkValidPlacement_empty_shape emptyGrid [] (-400) (-400)
    (fun r c => by simp [filledAt])

theorem getD_range_map {α : Type} (f : Nat → α) (n i : Nat) (d : α) (h : i < n) :
    ((List.range n).map f).getD i d = f i := by
  rw [List.getD_eq_getElem _ _ (by simpa using h)]
  simp

theorem rotateShape_length (s : Shape) :
    (rotateShape s).length = (s.getD 0 []).length := by
  simp [rotateShape]

theorem rotateShape_rows (s : Shape) :
    ∀ row ∈ rotateShape s, row.length = s.length := by
  intro row hrow
  simp only [rotateShape, List.mem_map] at hrow
  obtain ⟨r, -, rfl⟩ := hrow
  simp

theorem getD_zero_len {s : Shape} {L : Nat} (h : 0 < s.length)
    (hall : ∀ row ∈ s, row.length = L) : (s.getD 0 []).length = L := by
  rw [List.getD_eq_getElem _ _ h]
  exact hall _ (List.getElem_mem h)

theorem rotateShape_entry (s : Shape) (r c : Nat) (hr : r < (s.getD 0 []).length)
    (hc : c < s.length) :
    ((rotateShape s).getD r []).getD c 0 = (s.getD (s.length - 1 - c) []).getD r 0 := by
  have h1 : (rotateShape s).getD r [] = (List.range s.length).map fun c =>
      (s.getD (s.length - 1 - c) []).getD r 0 := by
    unfold rotateShape
    rw [getD_range_map _ _ _ _ hr]
  rw [h1, getD_range_map _ _ _ _ hc]

set_option maxHeartbeats 1600000 in
/-- C6: applying the 90° rotation step of the spec four times to a
rectangular shape matrix (positive row width) gives back the original matrix,
cell for cell. -/
theorem rotateShape_four (shape : Shape) (C : Nat) (hC : 0 < C)
    (hrect : ∀ row ∈ shape, row.length = C) :
    rotateShape (rotateShape (rotateShape (rotateShape shape))) = shape := by
  rcases Nat.eq_zero_or_pos shape.length with hR0 | hR
  · have hnil : shape = [] := List.length_eq_zero.mp hR0
    subst hnil
    rfl
  · have h0 : (shape.getD 0 []).length = C := getD_zero_len hR hrect
    have hs1len : (rotateShape shape).length = C := by rw [rotateShape_length, h0]
    have hs1rows := rotateShape_rows shape
    have hs1pos : 0 < (rotateShape shape).length := by omega
    have hs1_0 : ((rotateShape shape).getD 0 []).length = shape.length :=
      getD_zero_len hs1pos hs1rows
    have hs2len : (rotateShape (rotateShape shape)).length = shape.length := by
      rw [rotateShape_length, hs1_0]
    have hs2rows := rotateShape_rows (rotateShape shape)
    have hs2pos : 0 < (rotateShape (rotateShape shape)).length := by omega
    have hs2_0 : ((rotateShape (rotateShape shape)).getD 0 []).length = C := by
      rw [getD_zero_len hs2pos hs2rows, hs1len]
    have hs3len : (rotateShape (rotateShape (rotateShape shape))).length = C := by
      rw [rotateShape_length, hs2_0]
    have hs3rows := rotateShape_rows (rotateShape (rotateShape shape))
    have hs3pos : 0 < (rotateShape (rotateShape (rotateShape shape))).length := by omega
    have hs3_0 : ((rotateShape (rotateShape (rotateShape shape))).getD 0 []).length
        = shape.length := by
      rw [getD_zero_len hs3pos hs3rows, hs2len]
    have hs4len : (rotateShape (rotateShape (rotateShape (rotateShape shape)))).length
        = shape.length := by
      rw [rotateShape_length, hs3_0]
    have hs4rows := rotateShape_rows (rotateShape (rotateShape (rotateShape shape)))
    refine List.ext_getElem (by rw [hs4len]) ?_
    intro i h1 h2
    have hiR : i < shape.length := by rw [hs4len] at h1; exact h1
    have hrowlen4 :
        (rotateShape (rotateShape (rotateShape (rotateShape shape))))[i].length = C := by
      rw [hs4rows _ (List.getElem_mem h1), hs3len]
    have hrowlenS : shape[i].length = C := hrect _ (List.getElem_mem h2)
    refine List.ext_getElem (by rw [hrowlen4, hrowlenS]) ?_
    intro j hj1 hj2
    have hjC : j < C := by rw [hrowlen4] at hj1; exact hj1
    have e4 : ((rotateShape (rotateShape (rotateShape (rotateShape shape)))).getD i []).getD j 0
        = (rotateShape (rotateShape (rotateShape (rotateShape shape))))[i][j] := by
      rw [List.getD_eq_getElem _ _ h1, List.getD_eq_getElem _ _ hj1]
    have eS : (shape.getD i []).getD j 0 = shape[i][j] := by
      rw [List.getD_eq_getElem _ _ h2, List.getD_eq_getElem _ _ hj2]
    rw [← e4, ← eS]
    have hra : i < ((rotateShape (rotateShape (rotateShape shape))).getD 0 []).length := by
      rw [hs3_0]; exact hiR
    have hca : j < (rotateShape (rotateShape (rotateShape shape))).length := by
      rw [hs3len]; exact hjC
    have E1 := rotateShape_entry (rotateShape (rotateShape (rotateShape shape))) i j hra hca
    rw [hs3len] at E1
    have hrb : C - 1 - j < ((rotateShape (rotateShape shape)).getD 0 []).length := by
      rw [hs2_0]; omega
    have hcb : i < (rotateShape (rotateShape shape)).length := by
      rw [hs2len]; exact hiR
    have E2 := rotateShape_entry (rotateShape (rotateShape shape)) (C - 1 - j) i hrb hcb
    rw [hs2len] at E2
    have hrc : shape.length - 1 - i < ((rotateShape shape).getD 0 []).length := by
      rw [hs1_0]; omega
    have hcc : C - 1 - j < (rotateShape shape).length := by
      rw [hs1len]; omega
    have E3 := rotateShape_entry (rotateShape shape) (shape.length - 1 - i) (C - 1 - j) hrc hcc
    rw [hs1len] at E3
    have hrd : C - 1 - (C - 1 - j) < (shape.getD 0 []).length := by
      rw [h0]; omega
    have hcd : shape.length - 1 - i < shape.length := by omega
    have E4 := rotateShape_entry shape (C - 1 - (C - 1 - j)) (shape.length - 1 - i) hrd hcd
    rw [E1, E2, E3, E4, show shape.length - 1 - (shape.length - 1 - i) = i by omega,
      show C - 1 - (C - 1 - j) = j by omega]

/-- Witness for C6: four rotations of the T shape give back the T shape. -/
theorem rotateShape_four_witness :
    rotateShape (rotateShape (rotateShape (rotateShape [[0, 1, 0], [1, 1, 1]])))
      = [[0, 1, 0], [1, 1, 1]] :=
  rotateShape_four [[0, 1, 0], [1, 1, 1]] 3 (by decide) (by decide)

theorem catalog_boundary :
    ∀ base ∈ catalogShapes, ∀ k, k < 4 →
      topRowFilled (rotateShape^[k] base) = true ∧
      leftColFilled (rotateShape^[k] base) = true := by
  decide

theorem isCatalogRotation_boundary {sh : Shape} (h : isCatalogRotation sh) :
    topRowFilled sh = true ∧ leftColFilled sh = true := by
  obtain ⟨base, hb, k, hk, rfl⟩ := h
  exact catalog_boundary base hb k hk

theorem topRowFilled_exists {sh : Shape} (h : topRowFilled sh = true) :
    ∃ c, filledAt sh 0 c := by
  unfold topRowFilled at h
  rw [List.any_eq_true] at h
  obtain ⟨v, hv, hbeq⟩ := h
  obtain ⟨n, hn, rfl⟩ := List.mem_iff_getElem.mp hv
  refine ⟨n, ?_⟩
  unfold filledAt
  rw [List.getD_eq_getElem _ _ hn]
  simpa using hbeq

theorem leftColFilled_exists {sh : Shape} (h : leftColFilled sh = true) :
    ∃ r, filledAt sh r 0 := by
  unfold leftColFilled at h
  rw [List.any_eq_true] at h
  obtain ⟨row, hrow, hbeq⟩ := h
  obtain ⟨n, hn, rfl⟩ := List.mem_iff_getElem.mp hrow
  refine ⟨n, ?_⟩
  unfold filledAt
  rw [List.getD_eq_getElem _ _ hn]
  simpa using hbeq

theorem checkValid_true_bounds (grid : Grid) (shape : Shape) (x y : Int) (r c : Nat)
    (h : checkValidPlacement grid shape x y = true) (hf : filledAt shape r c) :
    0 ≤ Int.fdiv x 40 + (c : Int) ∧ Int.fdiv x 40 + (c : Int) < 10 ∧
    0 ≤ Int.fdiv y 40 + (r : Int) ∧ Int.fdiv y 40 + (r : Int) < 10 := by
  have hcell := (checkValidPlacement_iff_cells grid shape x y).mp h r c
  have hv : (shape.getD r []).getD c 0 = 1 := hf
  rw [hv] at hcell
  unfold cellCheck at hcell
  rw [if_pos rfl] at hcell
  by_cases hOOB : Int.fdiv x 40 + (c : Int) < 0 ∨ Int.fdiv x 40 + (c : Int) ≥ 10 ∨
      Int.fdiv y 40 + (r : Int) < 0 ∨ Int.fdiv y 40 + (r : Int) ≥ 10
  · rw [if_pos hOOB] at hcell
    exact absurd hcell (by decide)
  · push_neg at hOOB
    exact ⟨hOOB.1, hOOB.2.1, hOOB.2.2.1, hOOB.2.2.2⟩

/-- C2: any message emitted by `handleMouseUp` requires a held piece, an
active drag and an open websocket, is the single `place_piece` message
carrying the held shape and color and cell coordinates
`(floor(px/40), floor(py/40))`, is emitted only when `checkValidPlacement`
approves the release point, and — the held shape being one of the four
rotational states of a cataloged shape — those cell coordinates lie in
`0..9`. -/
theorem handleMouseUp_place_piece (s : ClientState) (px py : Int) (p : HeldPiece)
    (m : OutMsg) (hp : s.currentPiece = some p) (hcat : isCatalogRotation p.shape)
    (hm : m ∈ (handleMouseUp s px py).2) :
    s.dragState.isDragging = true ∧ s.wsOpen = true ∧
    checkValidPlacement s.gameState.grid p.shape px py = true ∧
    m = OutMsg.placePiece p.shape (Int.fdiv px 40) (Int.fdiv py 40) p.color ∧
    0 ≤ Int.fdiv px 40 ∧ Int.fdiv px 40 < 10 ∧
    0 ≤ Int.fdiv py 40 ∧ Int.fdiv py 40 < 10 := by
  by_cases hd : s.dragState.isDragging = true
  · by_cases hcw : (checkValidPlacement s.gameState.grid p.shape px py && s.wsOpen) = true
    · simp only [handleMouseUp, hp, hd, hcw, if_true, List.mem_singleton] at hm
      rw [Bool.and_eq_true] at hcw
      obtain ⟨hcheck, hws⟩ := hcw
      obtain ⟨htop, hleft⟩ := isCatalogRotation_boundary hcat
      obtain ⟨c0, hc0⟩ := topRowFilled_exists htop
      obtain ⟨r0, hr0⟩ := leftColFilled_exists hleft
      have B1 := checkValid_true_bounds _ _ px py 0 c0 hcheck hc0
      have B2 := checkValid_true_bounds _ _ px py r0 0 hcheck hr0
      have hz : ((0 : Nat) : Int) = 0 := rfl
      rw [hz] at B1 B2
      exact ⟨hd, hws, hcheck, hm, by omega, by omega, by omega, by omega⟩
    · exfalso
      simp [handleMouseUp, hp, hd, hcw] at hm
  · exfalso
    simp [handleMouseUp, hp, hd] at hm

/-- Witness for C2: from `demoState` (empty grid, held `O` piece, drag in
progress, websocket open), releasing at pixel `(0, 0)` emits the expected
`place_piece` message with in-range cell coordinates. -/
theorem handleMouseUp_place_piece_witness :
    demoState.dragState.isDragging = true ∧ demoState.wsOpen = true ∧
    checkValidPlacement demoState.gameState.grid demoHeld.shape 0 0 = true ∧
    demoMsg = OutMsg.placePiece demoHeld.shape (Int.fdiv 0 40) (Int.fdiv 0 40)
      demoHeld.color ∧
    0 ≤ Int.fdiv 0 40 ∧ Int.fdiv 0 40 < 10 ∧
    0 ≤ Int.fdiv 0 40 ∧ Int.fdiv 0 40 < 10 :=
  handleMouseUp_place_piece demoState 0 0 demoHeld demoMsg rfl
    ⟨[[1, 1], [1, 1]], by decide, 0, by decide, rfl⟩ (by decide)

/-- C3: the claimed behavior does not hold in the running client.  The
`onmessage` closure captures `currentPiece` from the pre-join render, where
it is `null`, so a `piece_rotated` message received while `demoState` holds
the `O` piece leaves the whole client state unchanged: the held shape stays
`[[1,1],[1,1]]` instead of becoming the payload shape `[[1],[1]]`. -/
theorem handlePieceRotated_stale :
    handlePieceRotated demoState none [[1], [1]] = demoState ∧
    (handlePieceRotated demoState none [[1], [1]]).currentPiece ≠
      some ⟨[[1], [1]], demoHeld.color, demoHeld.type, demoHeld.id⟩ := by
  constructor
  · rfl
  · decide

/-- C5: `checkValidPlacement` is pure — its stateful denotation returns the
client state unchanged, and its boolean result depends only on the grid and
the arguments, so two calls agreeing on those agree on the result. -/
theorem checkValidPlacement_pure (s t : ClientState) (shape : Shape) (x y : Int)
    (hgrid : t.gameState.grid = s.gameState.grid) :
    (checkValidPlacementCall s shape x y).2 = s ∧
    (checkValidPlacementCall t shape x y).1 = (checkValidPlacementCall s shape x y).1 := by
  constructor
  · rfl
  · simp [checkValidPlacementCall, hgrid]

/-- Witness for C5: two calls on `demoState` leave it unchanged and agree. -/
theorem checkValidPlacement_pure_witness :
    (checkValidPlacementCall demoState [[1]] 5 5).2 = demoState ∧
    (checkValidPlacementCall demoState [[1]] 5 5).1
      = (checkValidPlacementCall demoState [[1]] 5 5).1 :=
  checkValidPlacement_pure demoState demoState [[1]] 5 5 rfl

/-- C7: on a `piece_placed` message the client takes `grid`, `score` and
`next_piece` from the payload, clears the held piece, and leaves the players
map and every other field of the client state unchanged. -/
theorem handlePiecePlaced_spec (s : ClientState) (g : Grid) (sc : Int)
    (np : Option OfferedPiece) :
    (handlePiecePlaced s g sc np).gameState.grid = g ∧
    (handlePiecePlaced s g sc np).gameState.score = sc ∧
    (handlePiecePlaced s g sc np).gameState.nextPiece = np ∧
    (handlePiecePlaced s g sc np).currentPiece = none ∧
    (handlePiecePlaced s g sc np).gameState.players = s.gameState.players ∧
    (handlePiecePlaced s g sc np).gameState.playerName = s.gameState.playerName ∧
    (handlePiecePlaced s g sc np).gameState.playerColor = s.gameState.playerColor ∧
    (handlePiecePlaced s g sc np).roomId = s.roomId ∧
    (handlePiecePlaced s g sc np).playerName = s.playerName ∧
    (handlePiecePlaced s g sc np).isConnected = s.isConnected ∧
    (handlePiecePlaced s g sc np).dragState = s.dragState ∧
    (handlePiecePlaced s g sc np).piecePosition = s.piecePosition ∧
    (handlePiecePlaced s g sc np).isValidPlacement = s.isValidPlacement ∧
    (handlePiecePlaced s g sc np).wsOpen = s.wsOpen := by
  refine ⟨rfl, rfl, rfl, rfl, rfl, rfl, rfl, rfl, rfl, rfl, rfl, rfl, rfl, rfl⟩

/-- C8: `getNewPiece` sends no message; with a piece offered it sets the held
piece to a copy of the offered piece stamped with the fresh id and changes
nothing else (the record update fixes every other field, in particular
`nextPiece`); with no piece offered it is the identity. -/
theorem getNewPiece_spec (s : ClientState) (now : Nat) :
    (s.gameState.nextPiece = none → getNewPiece s now = (s, [])) ∧
    (∀ p : OfferedPiece, s.gameState.nextPiece = some p →
      getNewPiece s now =
        ({ s with currentPiece := some ⟨p.shape, p.color, p.type, now⟩ }, [])) := by
  constructor
  · intro h
    simp [getNewPiece, h]
  · intro p h
    simp [getNewPiece, h]

/-- Witness for C8: claiming the offered `O` piece of `demoState` at time 99
holds a copy with id 99, sends nothing, and changes nothing else. -/
theorem getNewPiece_spec_witness :
    getNewPiece demoState 99 =
      ({ demoState with currentPiece := some ⟨demoOffered.shape, demoOffered.color,
        demoOffered.type, 99⟩ }, []) :=
  (getNewPiece_spec demoState 99).2 demoOffered rfl

/-- C9: the catalog has exactly the seven named entries I, O, T, L, J, S, Z
with the listed shape matrices, each shape a non-empty rectangular matrix of
0/1 entries. -/
theorem TETRIS_PIECES_spec :
    TETRIS_PIECES.length = 7 ∧
    TETRIS_PIECES.map (·.name) = ["I", "O", "T", "L", "J", "S", "Z"] ∧
    TETRIS_PIECES.map (·.shape) =
      [[[1, 1, 1, 1]], [[1, 1], [1, 1]], [[0, 1, 0], [1, 1, 1]],
       [[1, 0, 0], [1, 1, 1]], [[0, 0, 1], [1, 1, 1]], [[0, 1, 1], [1, 1, 0]],
       [[1, 1, 0], [0, 1, 1]]] ∧
    (∀ e ∈ TETRIS_PIECES, e.shape ≠ [] ∧
      (∀ row ∈ e.shape, row ≠ [] ∧ row.length = (e.shape.getD 0 []).length) ∧
      ∀ row ∈ e.shape, ∀ v ∈ row, v = 0 ∨ v = 1) := by
  decide
